import Mathlib

/-!
Shallow embedding of the n8n OpenCode chat-model adapter.

The repository contains two variants of the `OpenCodeChatModel` class:
* the synchronous variant, `src/nodes/LmChatOpenCode/OpenCodeChatModel.ts`
  (single-shot only; `sendPrompt` returns the complete response body), and
* the streaming variant, `src/unnamed/part_000`
  (prompt submission returns void; the response is decoded from the shared
  SSE `/event` stream; `_streamResponseChunks` exposes the lazy sequence).

Definitions suffixed `Sync` embed the synchronous variant; definitions
suffixed `Stream` embed the streaming variant.  Network effects are embedded
by passing the outcome of each `fetch` call explicitly (`FetchResult`) and by
recording the requests a call issues as a trace of `Action`s.  The platform
`JSON.parse` is embedded as an explicit `parse` function in the environment;
the platform `TextDecoder`/string machinery of the SSE loop is embedded at
the character-list level.
-/

namespace OpenCodeSpec

/-- `OpenCodeMessagePart` from both variants: a response/prompt part tagged by
kind, with optional payload fields (only `type` and `text` matter to the
embedded logic). -/
structure OpenCodeMessagePart where
  type : String
  text : Option String := none
  content : Option String := none
  url : Option String := none
  filename : Option String := none
  mime : Option String := none
deriving DecidableEq, Repr

/-- `OpenCodeEvent` from the streaming variant, with the `properties` nesting
flattened: `part` is `properties?.part`, `infoStatus` is
`properties?.info?.status`. -/
structure OpenCodeEvent where
  type : String
  part : Option OpenCodeMessagePart := none
  infoStatus : Option String := none
deriving DecidableEq, Repr

/-! ## Message Translator (`convertMessagesToPromptParts`, identical in both
variants) -/

/-- One item of a list-valued message `content`: either a plain string or a
typed object with a `type` tag and an optional `text` field. -/
inductive ContentItem
  | str (s : String)
  | tagged (tag : String) (text : Option String)
deriving DecidableEq, Repr

/-- The `content` of one host message: a plain string, a list of items, or
anything else (skipped by the translator). -/
inductive MessageContent
  | str (s : String)
  | list (items : List ContentItem)
  | other
deriving DecidableEq, Repr

/-- Body of the inner `for (const item of content)` loop: the parts pushed
for one list item. -/
def itemToParts : ContentItem → List OpenCodeMessagePart
  | .str s => [{ type := "text", text := some s }]
  | .tagged tag text => if tag = "text" then [{ type := "text", text := text }] else []

/-- The inner loop over a list-valued `content`. -/
def itemsToParts : List ContentItem → List OpenCodeMessagePart
  | [] => []
  | it :: its => itemToParts it ++ itemsToParts its

/-- Parts pushed for one message of `convertMessagesToPromptParts`. -/
def messageToParts : MessageContent → List OpenCodeMessagePart
  | .str s => [{ type := "text", text := some s }]
  | .list items => itemsToParts items
  | .other => []

/-- `convertMessagesToPromptParts`: the outer `for (const message of messages)`
loop, accumulating pushed parts in order. -/
def convertMessagesToPromptParts : List MessageContent → List OpenCodeMessagePart
  | [] => []
  | m :: ms => messageToParts m ++ convertMessagesToPromptParts ms

/-! ## Event Stream Decoder (streaming variant, `streamResponse`)

The byte-to-text layer (`TextDecoder`, `buffer.split("\n")`) is embedded at
the character-list level: a chunk is a `List Char`, a line is a `List Char`,
and `JSON.parse` is an explicit `parse : List Char → Option OpenCodeEvent`
(`none` embeds a thrown parse error). -/

/-- The SSE data marker `"data: "` that each processed line must start with
(`line.startsWith("data: ")`). -/
def sseDataTag : List Char := "data: ".toList

/-- The literal `[DONE]` terminator payload. -/
def doneSentinel : List Char := "[DONE]".toList

/-- The texts yielded for one parsed event: a `message.part.updated` event
whose part is text-kind with truthy (non-empty) `text` yields that text;
every other event yields nothing. -/
def eventYields (e : OpenCodeEvent) : List String :=
  if e.type = "message.part.updated" then
    match e.part with
    | some p =>
      if p.type = "text" then
        match p.text with
        | some t => if t ≠ "" then [t] else []
        | none => []
      else []
    | none => []
  else []

/-- Whether a parsed event is `session.updated` with status `"completed"`,
which makes the decoder return. -/
def eventCompletes (e : OpenCodeEvent) : Bool :=
  e.type == "session.updated" && e.infoStatus == some "completed"

/-- The line-processing loop of `streamResponse`: for each line starting with
`data: `, strip the prefix; stop on `[DONE]`; skip a line whose payload fails
to parse; yield the text of a text-kind `message.part.updated` part; stop
after a `session.updated{status:"completed"}` event.  End of input without a
terminator simply ends the sequence. -/
def processLines (parse : List Char → Option OpenCodeEvent) :
    List (List Char) → List String
  | [] => []
  | line :: rest =>
    if line.take 6 = sseDataTag then
      let payload := line.drop 6
      if payload = doneSentinel then []
      else
        match parse payload with
        | none => processLines parse rest
        | some e =>
          if eventCompletes e then eventYields e
          else eventYields e ++ processLines parse rest
    else processLines parse rest

/-- `buffer.split("\n")` at the character level: the list of segments between
newline characters (always non-empty). -/
def splitNewlines : List Char → List (List Char)
  | [] => [[]]
  | c :: cs =>
    if c = '\n' then [] :: splitNewlines cs
    else
      match splitNewlines cs with
      | [] => [[c]]
      | seg :: segs => (c :: seg) :: segs

/-- The read loop's buffering: each chunk is appended to the carried buffer,
the result is split on newlines, the last segment becomes the new buffer
(`buffer = lines.pop() || ""`), and the complete lines are emitted.  When the
reader reports `done`, any trailing buffered partial line is dropped. -/
def sseLines (buffer : List Char) : List (List Char) → List (List Char)
  | [] => []
  | chunk :: rest =>
    let segs := splitNewlines (buffer ++ chunk)
    segs.dropLast ++ sseLines (segs.getLastD []) rest

/-- A `message.part.updated` event carrying a text-kind part with text `t`
(the shape of a well-formed incremental text frame). -/
def textEvent (t : String) : OpenCodeEvent :=
  { type := "message.part.updated", part := some { type := "text", text := some t } }

/-- A `session.updated` event with status `"completed"` (the completion
frame). -/
def completedEvent : OpenCodeEvent :=
  { type := "session.updated", infoStatus := some "completed" }

/-! ## Transport Client

The outcome of one platform `fetch` call, made explicit: a 2xx response with
decoded body `α`, a non-2xx response with status and body text, an abort
fired by the request-timeout timer (`AbortError`), or another thrown network
error. -/

inductive FetchResult (α : Type)
  | success (body : α)
  | httpError (status : Nat) (body : String)
  | aborted
  | networkError (msg : String)
deriving DecidableEq, Repr

/-- `requestTimeout = 30000` (milliseconds), identical in both variants. -/
def requestTimeout : Nat := 30000

/-- `createSession` of the synchronous variant: non-2xx throws with status
and body; an abort is caught and rethrown as a timeout error naming
`requestTimeout / 1000`; a 2xx body whose `id` field is missing or not a
string (embedded as `none`) throws the protocol error; otherwise the id is
returned. -/
def createSessionSync (r : FetchResult (Option String)) : Except String String :=
  match r with
  | .httpError status body =>
    .error ("Failed to create OpenCode session (" ++ toString status ++ "): " ++ body)
  | .aborted =>
    .error ("Request to create session timed out after "
      ++ toString (requestTimeout / 1000) ++ " seconds")
  | .networkError m => .error m
  | .success none =>
    .error "Failed to create session: API response is missing or has an invalid \"id\" field"
  | .success (some id) => .ok id

/-- `createSession` of the streaming variant: non-2xx throws, but a 2xx body
is cast to `OpenCodeSession` without validation and `session.id` is returned
as-is — a missing `id` (embedded as `none`) is returned, not rejected; an
abort propagates as the raw `AbortError`. -/
def createSessionStream (r : FetchResult (Option String)) : Except String (Option String) :=
  match r with
  | .httpError status body =>
    .error ("Failed to create OpenCode session (" ++ toString status ++ "): " ++ body)
  | .aborted => .error "AbortError"
  | .networkError m => .error m
  | .success idField => .ok idField

/-- The `textParts` extraction of the synchronous `sendPrompt`: the texts of
the response parts that are text-kind with truthy `text`. -/
def textPartsOf (parts : List OpenCodeMessagePart) : List String :=
  parts.filterMap fun p =>
    if p.type = "text" then
      match p.text with
      | some t => if t ≠ "" then some t else none
      | none => none
    else none

/-- `sendPrompt` of the synchronous variant: non-2xx throws with status and
body; an abort is rethrown as a timeout error naming `requestTimeout / 1000`;
a 2xx body without a `parts` array (embedded as `none`) throws; a response
whose extracted text parts are empty throws the no-text-content protocol
error; otherwise the concatenated text is returned. -/
def sendPromptSync (r : FetchResult (Option (List OpenCodeMessagePart))) :
    Except String String :=
  match r with
  | .httpError status body =>
    .error ("Failed to send prompt to OpenCode (" ++ toString status ++ "): " ++ body)
  | .aborted =>
    .error ("Request to send prompt timed out after "
      ++ toString (requestTimeout / 1000) ++ " seconds")
  | .networkError m => .error m
  | .success none =>
    .error "Invalid response from OpenCode: missing or invalid \"parts\" field"
  | .success (some parts) =>
    if textPartsOf parts = [] then
      .error "OpenCode API returned a response with no text content"
    else .ok (String.join (textPartsOf parts))

/-- `sendPrompt` of the streaming variant: returns void on 2xx; non-2xx
throws; there is no abort-specific catch, so a timeout propagates as the raw
`AbortError`. -/
def sendPromptStream (r : FetchResult Unit) : Except String Unit :=
  match r with
  | .httpError status body =>
    .error ("Failed to send prompt to OpenCode (" ++ toString status ++ "): " ++ body)
  | .aborted => .error "AbortError"
  | .networkError m => .error m
  | .success _ => .ok ()

/-- `deleteSession` of the synchronous variant: the DELETE's response is
never inspected (`fetch` does not throw on non-2xx), an abort and any other
error are caught and logged (second component), and nothing is ever
rethrown. -/
def deleteSessionSync (sessionId : String) (r : FetchResult Unit) :
    Except String Unit × List String :=
  match r with
  | .success _ => (.ok (), [])
  | .httpError _ _ => (.ok (), [])
  | .aborted =>
    (.ok (), ["Session deletion timed out after " ++ toString (requestTimeout / 1000)
      ++ " seconds for session " ++ sessionId])
  | .networkError m =>
    (.ok (), ["Failed to clean up OpenCode session " ++ sessionId ++ ": " ++ m])

/-- `deleteSession` of the streaming variant: the whole body sits in a
`try`/`catch` that logs every error; never rethrows.  A session id that is
`undefined` interpolates as the string `"undefined"`. -/
def deleteSessionStream (sessionId : Option String) (r : FetchResult Unit) :
    Except String Unit × List String :=
  match r with
  | .success _ => (.ok (), [])
  | .httpError _ _ => (.ok (), [])
  | .aborted =>
    (.ok (), ["Failed to clean up OpenCode session " ++ sessionId.getD "undefined"])
  | .networkError m =>
    (.ok (), ["Failed to clean up OpenCode session " ++ sessionId.getD "undefined" ++ ": " ++ m])

/-! ## Session Orchestrator -/

/-- One observable network request issued by a call.  Session ids are carried
as `Option String` because the streaming variant can thread an `undefined`
id into the URLs. -/
inductive Action
  | create
  | send (sessionId : Option String)
  | openStream
  | delete (sessionId : Option String)
deriving DecidableEq, Repr

/-- Environment of one synchronous-variant `_generate` call: the outcome of
each `fetch` it can issue. -/
structure SyncEnv where
  createFetch : FetchResult (Option String)
  sendFetch : FetchResult (Option (List OpenCodeMessagePart))
  deleteFetch : FetchResult Unit
deriving Repr

/-- Environment of one streaming-variant call: outcomes of the session
`fetch`es, the `/event` stream open (`some chunks` on 2xx with a body,
`none` body embedded separately), and the platform `JSON.parse`. -/
structure StreamEnv where
  createFetch : FetchResult (Option String)
  sendFetch : FetchResult Unit
  /-- `/event` open: 2xx with `some` the decoded chunk list, 2xx with a null
  body as `.success none`, or a failed open. -/
  streamFetch : FetchResult (Option (List (List Char)))
  parse : List Char → Option OpenCodeEvent
  deleteFetch : FetchResult Unit

/-- `streamResponse` of the streaming variant as one call: a non-2xx open
throws with status and body, a null body throws, and otherwise the decoded
text sequence is produced by the line-processing loop over the buffered
chunks. -/
def streamResponse (env : StreamEnv) : Except String (List String) :=
  match env.streamFetch with
  | .success (some chunks) => .ok (processLines env.parse (sseLines [] chunks))
  | .success none => .error "Response body is null"
  | .httpError status body =>
    .error ("Failed to connect to OpenCode event stream (" ++ toString status ++ "): " ++ body)
  | .aborted => .error "AbortError"
  | .networkError m => .error m

/-- `collectResponse`: drain `streamResponse` pushing each chunk whose text
is truthy, and join. -/
def collectResponse (env : StreamEnv) : Except String String :=
  match streamResponse env with
  | .error e => .error e
  | .ok texts => .ok (String.join (texts.filter (fun t => t != "")))

/-- The `try` body of the streaming `_generate` once a session id exists:
submit the prompt, then collect the response; paired with the requests it
issues. -/
def generateStreamBody (env : StreamEnv) (sid : Option String) :
    Except String String × List Action :=
  match sendPromptStream env.sendFetch with
  | .error e => (.error e, [Action.send sid])
  | .ok _ =>
    match collectResponse env with
    | .error e => (.error e, [Action.send sid, Action.openStream])
    | .ok text => (.ok text, [Action.send sid, Action.openStream])

/-- `_generate` of the streaming variant: create a session (a failure here
issues no delete), run the body, and in `finally` delete the session
unconditionally; a (dead) throwing delete would replace the result. -/
def generateStream (env : StreamEnv) : Except String String × List Action :=
  match createSessionStream env.createFetch with
  | .error e => (.error e, [Action.create])
  | .ok sid =>
    match (deleteSessionStream sid env.deleteFetch).1 with
    | .ok _ =>
      ((generateStreamBody env sid).1,
        Action.create :: (generateStreamBody env sid).2 ++ [Action.delete sid])
    | .error e =>
      (.error e, Action.create :: (generateStreamBody env sid).2 ++ [Action.delete sid])

/-- The generator body of `_streamResponseChunks` under a consumer that
consumes at most `k` yielded chunks before abandoning iteration: the result
is the consumed prefix. -/
def streamChunksBody (env : StreamEnv) (sid : Option String) (k : Nat) :
    Except String (List String) × List Action :=
  match sendPromptStream env.sendFetch with
  | .error e => (.error e, [Action.send sid])
  | .ok _ =>
    match streamResponse env with
    | .error e => (.error e, [Action.send sid, Action.openStream])
    | .ok texts => (.ok (texts.take k), [Action.send sid, Action.openStream])

/-- `_streamResponseChunks` of the streaming variant, driven by a consumer
that starts iterating and stops (if ever) after `k` chunks: session creation
first (a failure issues no delete), then the generator body, and the
`finally` delete runs on completion, thrown error, and early abandonment
alike. -/
def streamChunksCall (env : StreamEnv) (k : Nat) :
    Except String (List String) × List Action :=
  match createSessionStream env.createFetch with
  | .error e => (.error e, [Action.create])
  | .ok sid =>
    match (deleteSessionStream sid env.deleteFetch).1 with
    | .ok _ =>
      ((streamChunksBody env sid k).1,
        Action.create :: (streamChunksBody env sid k).2 ++ [Action.delete sid])
    | .error e =>
      (.error e, Action.create :: (streamChunksBody env sid k).2 ++ [Action.delete sid])

/-- The `try` body of the synchronous `_generate` once a session id exists:
submit the prompt and return its synchronous response text. -/
def generateSyncBody (env : SyncEnv) (sid : String) :
    Except String String × List Action :=
  match sendPromptSync env.sendFetch with
  | .error e => (.error e, [Action.send (some sid)])
  | .ok text => (.ok text, [Action.send (some sid)])

/-- `_generate` of the synchronous variant: `sessionId` is assigned inside
the `try`; the `finally` deletes only `if (sessionId)` — so a thrown
creation issues no delete, and a created session whose id is the empty
string (falsy) is silently not deleted. -/
def generateSync (env : SyncEnv) : Except String String × List Action :=
  match createSessionSync env.createFetch with
  | .error e => (.error e, [Action.create])
  | .ok sid =>
    if sid = "" then
      ((generateSyncBody env sid).1, Action.create :: (generateSyncBody env sid).2)
    else
      match (deleteSessionSync sid env.deleteFetch).1 with
      | .ok _ =>
        ((generateSyncBody env sid).1,
          Action.create :: (generateSyncBody env sid).2 ++ [Action.delete (some sid)])
      | .error e =>
        (.error e, Action.create :: (generateSyncBody env sid).2 ++ [Action.delete (some sid)])

/-- Number of session-delete requests in a trace. -/
def countDeletes : List Action → Nat
  | [] => 0
  | Action.delete _ :: rest => 1 + countDeletes rest
  | _ :: rest => countDeletes rest

/-! ## Configuration & Validation (constructor, identical in both variants
except for the defaulted base URL; the synchronous variant's defaults are
used) -/

/-- The constructor's input object `OpenCodeChatModelInput`: every field
optional. -/
structure Fields where
  baseUrl : Option String := none
  apiKey : Option String := none
  agent : Option String := none
  providerID : Option String := none
  modelID : Option String := none
  temperature : Option Int := none
  maxTokens : Option Int := none
deriving DecidableEq, Repr

/-- The constructed model instance (its fields after a successful
constructor run). -/
structure Model where
  baseUrl : String
  apiKey : Option String
  agent : String
  providerID : String
  modelID : String
  temperature : Option Int
  maxTokens : Option Int
deriving DecidableEq, Repr

/-- JavaScript `String.prototype.trim`, embedded at the character level:
whitespace stripped from both ends. -/
def jsTrim (s : String) : String :=
  String.mk (((s.toList.dropWhile Char.isWhitespace).reverse.dropWhile
    Char.isWhitespace).reverse)

/-- The constructor: validity of `new URL(baseUrl)` is supplied as the
platform predicate `urlValid`.  An invalid base URL throws; an effective
`providerID`/`modelID` that is falsy or trims to empty throws; otherwise the
instance is built from the given fields with the class defaults for absent
optional ones.  The constructor performs no network request. -/
def mkOpenCodeChatModel (urlValid : String → Bool) (f : Fields) :
    Except String Model :=
  let baseUrl := f.baseUrl.getD "http://127.0.0.1:4096"
  if urlValid baseUrl = false then
    .error ("Invalid baseUrl: " ++ baseUrl ++ ". Must be a valid URL.")
  else
    let providerID := f.providerID.getD "anthropic"
    let modelID := f.modelID.getD "claude-3-5-sonnet-20241022"
    if providerID = "" ∨ jsTrim providerID = "" then
      .error "providerID is required and cannot be empty"
    else if modelID = "" ∨ jsTrim modelID = "" then
      .error "modelID is required and cannot be empty"
    else
      .ok { baseUrl := baseUrl,
            apiKey := f.apiKey,
            agent := f.agent.getD "build",
            providerID := providerID,
            modelID := modelID,
            temperature := f.temperature,
            maxTokens := f.maxTokens }

/-! ## Node wrapper (`LmChatOpenCode.supplyData`) and the prompt request
body of the synchronous `sendPrompt` -/

/-- The node's `options` collection relevant to model construction. -/
structure NodeOptions where
  baseUrl : Option String := none
  temperature : Option Int := none
  maxTokens : Option Int := none
deriving DecidableEq, Repr

/-- JavaScript `a || b` over an optional string: `b` when `a` is absent or
falsy (empty). -/
def jsOr (a : Option String) (b : String) : String :=
  match a with
  | some s => if s = "" then b else s
  | none => b

/-- `supplyData`'s base-URL resolution: `options.baseUrl`, else the
credential's, else the default. -/
def supplyDataBaseUrl (optsBaseUrl credsBaseUrl : Option String) : String :=
  jsOr optsBaseUrl (jsOr credsBaseUrl "http://localhost:4096")

/-- `supplyData`: construct the model from node parameters; the Maximum
Tokens option is passed through unless it equals `-1`, which is mapped to
`undefined`. -/
def supplyDataModel (urlValid : String → Bool)
    (credsBaseUrl credsApiKey : Option String)
    (agent providerID modelID : String) (opts : NodeOptions) :
    Except String Model :=
  mkOpenCodeChatModel urlValid
    { baseUrl := some (supplyDataBaseUrl opts.baseUrl credsBaseUrl),
      apiKey := credsApiKey,
      agent := some agent,
      providerID := some providerID,
      modelID := some modelID,
      temperature := opts.temperature,
      maxTokens := if opts.maxTokens = some (-1) then none else opts.maxTokens }

/-- The keys of the JSON body built by the synchronous `sendPrompt`:
`parts`, `model`, `agent` always, `temperature` and `max_tokens` only when
the corresponding model field is defined. -/
def promptBodyKeys (m : Model) : List String :=
  ["parts", "model", "agent"]
    ++ (if m.temperature.isSome then ["temperature"] else [])
    ++ (if m.maxTokens.isSome then ["max_tokens"] else [])

/-! ## Helper lemmas -/

lemma take6_sseDataTag (p : List Char) : (sseDataTag ++ p).take 6 = sseDataTag := rfl

lemma drop6_sseDataTag (p : List Char) : (sseDataTag ++ p).drop 6 = p := rfl

lemma eventCompletes_textEvent (t : String) : eventCompletes (textEvent t) = false := rfl

lemma eventYields_textEvent (t : String) (h : t ≠ "") : eventYields (textEvent t) = [t] := by
  simp [eventYields, textEvent, h]

lemma eventCompletes_completedEvent : eventCompletes completedEvent = true := rfl

lemma eventYields_completedEvent : eventYields completedEvent = [] := rfl

lemma processLines_text_cons (parse : List Char → Option OpenCodeEvent)
    (p : List Char) (t : String) (rest : List (List Char))
    (hp : parse p = some (textEvent t)) (ht : t ≠ "") (hd : p ≠ doneSentinel) :
    processLines parse ((sseDataTag ++ p) :: rest) = t :: processLines parse rest := by
  simp [processLines, take6_sseDataTag, drop6_sseDataTag, hd, hp,
    eventCompletes_textEvent, eventYields_textEvent t ht]

lemma processLines_skip_cons (parse : List Char → Option OpenCodeEvent)
    (p : List Char) (rest : List (List Char))
    (hp : parse p = none) (hd : p ≠ doneSentinel) :
    processLines parse ((sseDataTag ++ p) :: rest) = processLines parse rest := by
  simp [processLines, take6_sseDataTag, drop6_sseDataTag, hd, hp]

lemma processLines_completed_cons (parse : List Char → Option OpenCodeEvent)
    (p : List Char) (rest : List (List Char))
    (hp : parse p = some completedEvent) (hd : p ≠ doneSentinel) :
    processLines parse ((sseDataTag ++ p) :: rest) = [] := by
  simp [processLines, take6_sseDataTag, drop6_sseDataTag, hd, hp,
    eventCompletes_completedEvent, eventYields_completedEvent]

lemma processLines_textFrames (parse : List Char → Option OpenCodeEvent)
    (pairs : List (List Char × String)) (tail : List (List Char))
    (hp : ∀ pr ∈ pairs,
      parse pr.1 = some (textEvent pr.2) ∧ pr.2 ≠ "" ∧ pr.1 ≠ doneSentinel) :
    processLines parse (pairs.map (fun pr => sseDataTag ++ pr.1) ++ tail)
      = pairs.map Prod.snd ++ processLines parse tail := by
  induction pairs with
  | nil => simp
  | cons hd tl ih =>
    obtain ⟨h1, h2, h3⟩ := hp hd (List.mem_cons_self hd tl)
    simp only [List.map_cons, List.cons_append]
    rw [processLines_text_cons parse hd.1 hd.2 _ h1 h2 h3,
      ih (fun pr hpr => hp pr (List.mem_cons_of_mem hd hpr))]

lemma deleteSessionSync_fst (sessionId : String) (r : FetchResult Unit) :
    (deleteSessionSync sessionId r).1 = Except.ok () := by
  cases r <;> rfl

lemma deleteSessionStream_fst (sessionId : Option String) (r : FetchResult Unit) :
    (deleteSessionStream sessionId r).1 = Except.ok () := by
  cases r <;> rfl

/-! ## C2 -/

/-- C2: for every well-formed SSE stream of `N` `message.part.updated`
text-kind events with non-empty texts followed by a
`session.updated{status:"completed"}` event, the decoder yields exactly the
`N` texts in arrival order and terminates, the streaming call that drains
the sequence observes exactly those texts, and the single-shot call returns
their concatenation.  (Streaming variant, `streamResponse` /
`collectResponse` / `_generate`, `src/unnamed/part_000`.) -/
theorem c2_stream_and_collect (env : StreamEnv) (pairs : List (List Char × String))
    (pc : List Char) (chunks : List (List Char)) (sid : Option String)
    (hp : ∀ pr ∈ pairs,
      env.parse pr.1 = some (textEvent pr.2) ∧ pr.2 ≠ "" ∧ pr.1 ≠ doneSentinel)
    (hc : env.parse pc = some completedEvent) (hcd : pc ≠ doneSentinel)
    (hopen : env.streamFetch = FetchResult.success (some chunks))
    (hlines : sseLines [] chunks
      = pairs.map (fun pr => sseDataTag ++ pr.1) ++ [sseDataTag ++ pc])
    (hcreate : createSessionStream env.createFetch = Except.ok sid)
    (hsend : sendPromptStream env.sendFetch = Except.ok ()) :
    streamResponse env = Except.ok (pairs.map Prod.snd)
    ∧ (streamChunksCall env pairs.length).1 = Except.ok (pairs.map Prod.snd)
    ∧ (generateStream env).1 = Except.ok (String.join (pairs.map Prod.snd)) := by
  have hsr : streamResponse env = Except.ok (pairs.map Prod.snd) := by
    simp only [streamResponse, hopen]
    rw [hlines, processLines_textFrames env.parse pairs _ hp,
      processLines_completed_cons env.parse pc [] hc hcd, List.append_nil]
  have hfilter : (pairs.map Prod.snd).filter (fun t => t != "") = pairs.map Prod.snd := by
    refine List.filter_eq_self.mpr fun a ha => ?_
    obtain ⟨pr, hpr, hsnd⟩ := List.mem_map.mp ha
    have := (hp pr hpr).2.1
    rw [← hsnd]
    simpa using this
  have hcollect : collectResponse env = Except.ok (String.join (pairs.map Prod.snd)) := by
    simp only [collectResponse, hsr, hfilter]
  refine ⟨hsr, ?_, ?_⟩
  · simp only [streamChunksCall, hcreate, deleteSessionStream_fst, streamChunksBody,
      hsend, hsr]
    simp
  · simp only [generateStream, hcreate, deleteSessionStream_fst, generateStreamBody,
      hsend, hcollect]

/-- C2 witness: a concrete two-frame stream (split across two reads in the
middle of a frame) followed by the completion event. -/
def envC2W : StreamEnv :=
  { createFetch := .success (some "s1"), sendFetch := .success (),
    streamFetch := .success (some ["data: p1\nda".toList, "ta: p2\ndata: pc\n".toList]),
    parse := fun l =>
      if l = "p1".toList then some (textEvent "He")
      else if l = "p2".toList then some (textEvent "llo")
      else if l = "pc".toList then some completedEvent
      else none,
    deleteFetch := .success () }

/-- C2 witness: on the concrete stream, the decoder yields `["He", "llo"]`,
draining the streaming call observes the same two chunks, and the
single-shot call returns `"Hello"`. -/
theorem c2_stream_and_collect_witness :
    streamResponse envC2W = Except.ok ["He", "llo"]
    ∧ (streamChunksCall envC2W 2).1 = Except.ok ["He", "llo"]
    ∧ (generateStream envC2W).1 = Except.ok "Hello" :=
  c2_stream_and_collect envC2W [("p1".toList, "He"), ("p2".toList, "llo")]
    "pc".toList ["data: p1\nda".toList, "ta: p2\ndata: pc\n".toList] (some "s1")
    (by decide) (by decide) (by decide) rfl (by decide) rfl rfl

/-! ## C6 -/

/-- C6: an SSE stream with one malformed-JSON `data:` frame between two valid
text frames still yields both texts, in order, and raises no error (the
malformed frame is skipped).  (Streaming variant, `streamResponse`.) -/
theorem c6_malformed_frame_skipped (parse : List Char → Option OpenCodeEvent)
    (p1 pBad p2 : List Char) (t1 t2 : String)
    (h1 : parse p1 = some (textEvent t1)) (ht1 : t1 ≠ "") (hd1 : p1 ≠ doneSentinel)
    (hb : parse pBad = none) (hdb : pBad ≠ doneSentinel)
    (h2 : parse p2 = some (textEvent t2)) (ht2 : t2 ≠ "") (hd2 : p2 ≠ doneSentinel) :
    processLines parse [sseDataTag ++ p1, sseDataTag ++ pBad, sseDataTag ++ p2] = [t1, t2]
    ∧ (∀ env : StreamEnv, ∀ chunks : List (List Char), env.parse = parse →
        env.streamFetch = FetchResult.success (some chunks) →
        sseLines [] chunks = [sseDataTag ++ p1, sseDataTag ++ pBad, sseDataTag ++ p2] →
        streamResponse env = Except.ok [t1, t2]) := by
  have hmain :
      processLines parse [sseDataTag ++ p1, sseDataTag ++ pBad, sseDataTag ++ p2]
        = [t1, t2] := by
    rw [processLines_text_cons parse p1 t1 _ h1 ht1 hd1,
      processLines_skip_cons parse pBad _ hb hdb,
      processLines_text_cons parse p2 t2 _ h2 ht2 hd2]
    rfl
  refine ⟨hmain, fun env chunks hparse hopen hlines => ?_⟩
  simp only [streamResponse, hopen]
  rw [hlines, hparse, hmain]

/-- C6 witness: a concrete malformed payload between two valid frames. -/
theorem c6_malformed_frame_skipped_witness :
    processLines
      (fun l =>
        if l = "q1".toList then some (textEvent "a")
        else if l = "q2".toList then some (textEvent "b")
        else none)
      [sseDataTag ++ "q1".toList, sseDataTag ++ "oops".toList, sseDataTag ++ "q2".toList]
      = ["a", "b"] :=
  (c6_malformed_frame_skipped _ "q1".toList "oops".toList "q2".toList "a" "b"
    (by decide) (by decide) (by decide) (by decide) (by decide)
    (by decide) (by decide) (by decide)).1

lemma countDeletes_append (a b : List Action) :
    countDeletes (a ++ b) = countDeletes a + countDeletes b := by
  induction a with
  | nil => simp [countDeletes]
  | cons x xs ih =>
    cases x <;> simp [countDeletes, ih, Nat.add_assoc]

lemma countDeletes_generateSyncBody (env : SyncEnv) (sid : String) :
    countDeletes (generateSyncBody env sid).2 = 0 := by
  unfold generateSyncBody
  rcases sendPromptSync env.sendFetch with e | t
  all_goals rfl

lemma countDeletes_generateStreamBody (env : StreamEnv) (sid : Option String) :
    countDeletes (generateStreamBody env sid).2 = 0 := by
  unfold generateStreamBody
  rcases sendPromptStream env.sendFetch with e | u
  · rfl
  · rcases collectResponse env with e | t <;> rfl

lemma countDeletes_streamChunksBody (env : StreamEnv) (sid : Option String) (k : Nat) :
    countDeletes (streamChunksBody env sid k).2 = 0 := by
  unfold streamChunksBody
  rcases sendPromptStream env.sendFetch with e | u
  · rfl
  · rcases streamResponse env with e | t <;> rfl

/-! ## C1 -/

/-- C1 counterexample environment: session creation returns HTTP 2xx with the
id `""` — a string, so validation passes — and the synchronous `_generate`'s
`finally` guard `if (sessionId)` is falsy, so no delete is issued. -/
def envC1empty : SyncEnv :=
  { createFetch := .success (some ""),
    sendFetch := .success (some [{ type := "text", text := some "Hi" }]),
    deleteFetch := .success () }

/-- C1 counterexample: a synchronous single-shot call in which session
creation returns a session id (the empty string) and the call succeeds, yet
zero session-delete requests are issued — refuting "delete is invoked
exactly once whenever session creation returns a session id". -/
theorem c1_counterexample :
    createSessionSync envC1empty.createFetch = Except.ok ""
    ∧ (generateSync envC1empty).1 = Except.ok "Hi"
    ∧ countDeletes (generateSync envC1empty).2 = 0 :=
  ⟨rfl, rfl, rfl⟩

/-- C1 (amended: session creation returns a *non-empty* session id in the
synchronous variant): the session-delete request is issued exactly once per
call — for the synchronous single-shot call, the streaming single-shot call,
and the streaming call under a consumer that abandons after any `k` chunks —
regardless of whether prompt submission or stream decoding succeeded or
threw. -/
theorem c1_delete_exactly_once (envS : SyncEnv) (envT : StreamEnv)
    (sidS : String) (sidT : Option String) (k : Nat)
    (hS : createSessionSync envS.createFetch = Except.ok sidS) (hne : sidS ≠ "")
    (hT : createSessionStream envT.createFetch = Except.ok sidT) :
    countDeletes (generateSync envS).2 = 1
    ∧ countDeletes (generateStream envT).2 = 1
    ∧ countDeletes (streamChunksCall envT k).2 = 1 := by
  refine ⟨?_, ?_, ?_⟩
  · simp only [generateSync, hS, if_neg hne, deleteSessionSync_fst]
    simp [countDeletes, countDeletes_append, countDeletes_generateSyncBody]
  · simp only [generateStream, hT, deleteSessionStream_fst]
    simp [countDeletes, countDeletes_append, countDeletes_generateStreamBody]
  · simp only [streamChunksCall, hT, deleteSessionStream_fst]
    simp [countDeletes, countDeletes_append, countDeletes_streamChunksBody]

/-- C1 witness environment, synchronous variant: a successful call. -/
def envC1S : SyncEnv :=
  { createFetch := .success (some "s1"),
    sendFetch := .success (some [{ type := "text", text := some "Hi" }]),
    deleteFetch := .success () }

/-- C1 witness environment, streaming variant: prompt submission times out
and even the delete request itself fails — the delete is still issued
once. -/
def envC1T : StreamEnv :=
  { createFetch := .success (some "s2"), sendFetch := .aborted,
    streamFetch := .success none, parse := fun _ => none,
    deleteFetch := .aborted }

/-- C1 witness: concrete environments for all three entry points. -/
theorem c1_delete_exactly_once_witness :
    countDeletes (generateSync envC1S).2 = 1
    ∧ countDeletes (generateStream envC1T).2 = 1
    ∧ countDeletes (streamChunksCall envC1T 3).2 = 1 :=
  c1_delete_exactly_once envC1S envC1T "s1" (some "s2") 3 rfl (by decide) rfl

/-! ## C3 -/

/-- C3 counterexample environment: session creation returns HTTP 2xx with no
`id` field; everything downstream succeeds. -/
def envC3 : StreamEnv :=
  { createFetch := .success none, sendFetch := .success (),
    streamFetch := .success (some ["data: h1\ndata: hc\n".toList]),
    parse := fun l =>
      if l = "h1".toList then some (textEvent "Hello")
      else if l = "hc".toList then some completedEvent
      else none,
    deleteFetch := .success () }

/-- C3 counterexample: in the streaming variant, a 2xx create-session
response with no `id` field is *not* rejected — `createSession` returns the
missing id as-is, the prompt-submission request is still made (with an
undefined session id), and the call even succeeds. -/
theorem c3_counterexample :
    createSessionStream envC3.createFetch = Except.ok none
    ∧ (generateStream envC3).1 = Except.ok "Hello"
    ∧ Action.send none ∈ (generateStream envC3).2 :=
  ⟨by rfl, by rfl, by decide⟩

/-- C3 (amended: restricted to the synchronous variant, whose
`createSession` validates the body): a 2xx create-session response whose
body is missing a string `id` field makes the single-shot call reject with
the protocol error, and the trace is exactly the create attempt — no
prompt-submission request is made. -/
theorem c3_missing_id_sync (env : SyncEnv)
    (h : env.createFetch = FetchResult.success none) :
    (generateSync env).1 = Except.error
        "Failed to create session: API response is missing or has an invalid \"id\" field"
    ∧ (generateSync env).2 = [Action.create] := by
  simp [generateSync, h, createSessionSync]

/-- C3 witness environment: a 2xx id-less create-session response in the
synchronous variant. -/
def envC3W : SyncEnv :=
  { createFetch := .success none,
    sendFetch := .success (some [{ type := "text", text := some "Hi" }]),
    deleteFetch := .success () }

/-- C3 witness: a concrete synchronous environment with a 2xx id-less
create-session response. -/
theorem c3_missing_id_sync_witness :
    (generateSync envC3W).1
      = Except.error
        "Failed to create session: API response is missing or has an invalid \"id\" field"
    ∧ (generateSync envC3W).2 = [Action.create] :=
  c3_missing_id_sync envC3W rfl

/-! ## C4 -/

/-- C4 counterexample environment: the event stream completes without a
single text increment. -/
def envC4 : StreamEnv :=
  { createFetch := .success (some "s1"), sendFetch := .success (),
    streamFetch := .success (some ["data: kc\n".toList]),
    parse := fun l => if l = "kc".toList then some completedEvent else none,
    deleteFetch := .success () }

/-- C4 counterexample: in the streaming variant, a drained sequence with zero
text increments is returned as the *successful* empty string — refuting "the
call fails with a protocol error rather than returning an empty string". -/
theorem c4_counterexample :
    streamResponse envC4 = Except.ok []
    ∧ (generateStream envC4).1 = Except.ok "" :=
  ⟨rfl, rfl⟩

/-- C4 (amended: restricted to the synchronous variant): a prompt response
whose parts contain zero text increments makes the single-shot call fail
with the no-text-content protocol error instead of returning an empty
string. -/
theorem c4_empty_response_sync (env : SyncEnv) (sid : String)
    (parts : List OpenCodeMessagePart)
    (hc : createSessionSync env.createFetch = Except.ok sid)
    (hs : env.sendFetch = FetchResult.success (some parts))
    (hz : textPartsOf parts = []) :
    (generateSync env).1
      = Except.error "OpenCode API returned a response with no text content" := by
  have hb : sendPromptSync env.sendFetch
      = Except.error "OpenCode API returned a response with no text content" := by
    simp [sendPromptSync, hs, hz]
  simp only [generateSync, hc]
  split_ifs with hsid
  · simp only [generateSyncBody, hb]
  · simp only [deleteSessionSync_fst, generateSyncBody, hb]

/-- C4 witness environment: a 2xx prompt response whose only part is
text-kind with an empty text — zero increments. -/
def envC4W : SyncEnv :=
  { createFetch := .success (some "s1"),
    sendFetch := .success (some [{ type := "text", text := some "" }]),
    deleteFetch := .success () }

/-- C4 witness: on the concrete environment the call fails with the
no-text-content protocol error. -/
theorem c4_empty_response_sync_witness :
    (generateSync envC4W).1
      = Except.error "OpenCode API returned a response with no text content" :=
  c4_empty_response_sync envC4W "s1" [{ type := "text", text := some "" }]
    rfl rfl (by decide)

/-! ## C5 -/

/-- C5: for every session id and every fetch outcome — success, non-2xx
response, timeout abort, or network error — neither variant's
`deleteSession` propagates an error to its caller; failures are only
logged. -/
theorem c5_delete_never_throws (sessionIdS : String) (sessionIdT : Option String)
    (r r' : FetchResult Unit) :
    (deleteSessionSync sessionIdS r).1 = Except.ok ()
    ∧ (deleteSessionStream sessionIdT r').1 = Except.ok () :=
  ⟨deleteSessionSync_fst sessionIdS r, deleteSessionStream_fst sessionIdT r'⟩

/-! ## C8 -/

/-- C8 counterexample environment: the streaming variant's prompt submission
hits the request timeout. -/
def envC8 : StreamEnv :=
  { createFetch := .success (some "s1"), sendFetch := .aborted,
    streamFetch := .success (some []), parse := fun _ => none,
    deleteFetch := .success () }

/-- C8 counterexample: in the streaming variant, a timed-out prompt
submission propagates the raw `AbortError` — not a timeout error naming the
configured 30-second duration — though the session delete is still
issued. -/
theorem c8_counterexample :
    (generateStream envC8).1 = Except.error "AbortError"
    ∧ "AbortError" ≠ "Request to send prompt timed out after 30 seconds"
    ∧ countDeletes (generateStream envC8).2 = 1 :=
  ⟨rfl, by decide, rfl⟩

/-- C8 (amended: restricted to the synchronous variant, whose `sendPrompt`
catches the abort): a prompt submission that exceeds the bounded request
timeout makes the single-shot call reject with a timeout error naming the
configured `requestTimeout / 1000` = 30-second duration, and, whenever that
call's session id is non-empty, the session-delete request is still issued
for that call's session (for the empty-string id the `finally` guard skips
the delete, as in the C1 counterexample). -/
theorem c8_timeout_sync (env : SyncEnv) (sid : String)
    (hc : createSessionSync env.createFetch = Except.ok sid)
    (ha : env.sendFetch = FetchResult.aborted) :
    (generateSync env).1
      = Except.error ("Request to send prompt timed out after "
          ++ toString (requestTimeout / 1000) ++ " seconds")
    ∧ (generateSync env).1
      = Except.error "Request to send prompt timed out after 30 seconds"
    ∧ (sid ≠ "" → countDeletes (generateSync env).2 = 1) := by
  have hb : sendPromptSync env.sendFetch
      = Except.error ("Request to send prompt timed out after "
          ++ toString (requestTimeout / 1000) ++ " seconds") := by
    simp only [ha, sendPromptSync]
  have h1 : (generateSync env).1
      = Except.error ("Request to send prompt timed out after "
          ++ toString (requestTimeout / 1000) ++ " seconds") := by
    simp only [generateSync, hc]
    split_ifs with hsid
    · simp only [generateSyncBody, hb]
    · simp only [deleteSessionSync_fst, generateSyncBody, hb]
  have h3 : sid ≠ "" → countDeletes (generateSync env).2 = 1 := by
    intro hne
    simp only [generateSync, hc, if_neg hne, deleteSessionSync_fst]
    simp [countDeletes, countDeletes_append, countDeletes_generateSyncBody]
  exact ⟨h1, h1, h3⟩

/-- C8 witness environment: the synchronous variant's prompt submission hits
the request timeout. -/
def envC8W : SyncEnv :=
  { createFetch := .success (some "s1"), sendFetch := .aborted,
    deleteFetch := .success () }

/-- C8 witness: a concrete synchronous environment whose prompt submission
aborts on timeout. -/
theorem c8_timeout_sync_witness :
    (generateSync envC8W).1
      = Except.error "Request to send prompt timed out after 30 seconds"
    ∧ countDeletes (generateSync envC8W).2 = 1 :=
  ⟨(c8_timeout_sync envC8W "s1" rfl rfl).2.1,
   (c8_timeout_sync envC8W "s1" rfl rfl).2.2 (by decide)⟩

/-! ## C7 -/

lemma jsTrim_empty : jsTrim "" = "" := by decide

/-- Inversion of a successful constructor run: every validation passed and
every field of the instance is exactly the given value (or the class default
for an absent optional one) — nothing is silently defaulted past
validation. -/
lemma mkModel_ok_fields (urlValid : String → Bool) (f : Fields) (m : Model)
    (h : mkOpenCodeChatModel urlValid f = Except.ok m) :
    urlValid (f.baseUrl.getD "http://127.0.0.1:4096") = true
    ∧ jsTrim m.providerID ≠ "" ∧ jsTrim m.modelID ≠ ""
    ∧ m.baseUrl = f.baseUrl.getD "http://127.0.0.1:4096"
    ∧ m.apiKey = f.apiKey
    ∧ m.agent = f.agent.getD "build"
    ∧ m.providerID = f.providerID.getD "anthropic"
    ∧ m.modelID = f.modelID.getD "claude-3-5-sonnet-20241022"
    ∧ m.temperature = f.temperature
    ∧ m.maxTokens = f.maxTokens := by
  simp only [mkOpenCodeChatModel] at h
  split_ifs at h with h1 h2 h3
  cases h
  refine ⟨?_, fun he => h2 (Or.inr he), fun he => h3 (Or.inr he),
    rfl, rfl, rfl, rfl, rfl, rfl, rfl⟩
  cases hu : urlValid (f.baseUrl.getD "http://127.0.0.1:4096")
  · exact (h1 hu).elim
  · rfl

/-- C7: construction fails synchronously (the constructor is a pure function
issuing no network request) whenever the effective `baseUrl` is not a valid
URL, or the effective `providerID` or `modelID` is empty after trimming;
and a successful construction implies every validation passed with no input
silently defaulted past validation. -/
theorem c7_constructor_validation (urlValid : String → Bool) (f : Fields) :
    (urlValid (f.baseUrl.getD "http://127.0.0.1:4096") = false →
      mkOpenCodeChatModel urlValid f
        = Except.error ("Invalid baseUrl: " ++ f.baseUrl.getD "http://127.0.0.1:4096"
            ++ ". Must be a valid URL."))
    ∧ (urlValid (f.baseUrl.getD "http://127.0.0.1:4096") = true →
        jsTrim (f.providerID.getD "anthropic") = "" →
        mkOpenCodeChatModel urlValid f
          = Except.error "providerID is required and cannot be empty")
    ∧ (urlValid (f.baseUrl.getD "http://127.0.0.1:4096") = true →
        jsTrim (f.providerID.getD "anthropic") ≠ "" →
        jsTrim (f.modelID.getD "claude-3-5-sonnet-20241022") = "" →
        mkOpenCodeChatModel urlValid f
          = Except.error "modelID is required and cannot be empty")
    ∧ (∀ m : Model, mkOpenCodeChatModel urlValid f = Except.ok m →
        urlValid (f.baseUrl.getD "http://127.0.0.1:4096") = true
        ∧ jsTrim m.providerID ≠ "" ∧ jsTrim m.modelID ≠ ""
        ∧ m.baseUrl = f.baseUrl.getD "http://127.0.0.1:4096"
        ∧ m.providerID = f.providerID.getD "anthropic"
        ∧ m.modelID = f.modelID.getD "claude-3-5-sonnet-20241022"
        ∧ m.temperature = f.temperature
        ∧ m.maxTokens = f.maxTokens) := by
  refine ⟨?_, ?_, ?_, fun m hm => ?_⟩
  · intro hurl
    unfold mkOpenCodeChatModel
    rw [if_pos (by simp [hurl])]
  · intro hurl htrim
    unfold mkOpenCodeChatModel
    rw [if_neg (by simp [hurl]), if_pos (Or.inr htrim)]
  · intro hurl hprov htrim
    have hne : ¬(f.providerID.getD "anthropic" = ""
        ∨ jsTrim (f.providerID.getD "anthropic") = "") := by
      rintro (he | he)
      · exact hprov (by rw [he, jsTrim_empty])
      · exact hprov he
    unfold mkOpenCodeChatModel
    rw [if_neg (by simp [hurl]), if_neg hne, if_pos (Or.inr htrim)]
  · obtain ⟨h1, h2, h3, _, _, _, h7, h8, h9, h10⟩ := mkModel_ok_fields urlValid f m hm
    exact ⟨h1, h2, h3, (mkModel_ok_fields urlValid f m hm).2.2.2.1, h7, h8, h9, h10⟩

/-- C7 witness: an invalid base URL fails construction with the
configuration error, before anything else. -/
theorem c7_constructor_validation_witness :
    mkOpenCodeChatModel (fun _ => false) { baseUrl := some "not-a-url" }
      = Except.error "Invalid baseUrl: not-a-url. Must be a valid URL." :=
  (c7_constructor_validation (fun _ => false) { baseUrl := some "not-a-url" }).1 rfl

/-! ## C9 -/

/-- C9: the message translator is a pure function for which: a sequence of
string-content messages yields exactly one text part per message with the
same text, in order; a list-content message yields exactly the per-item
parts, where a string item and a `text`-tagged item yield one text part each
and any other tag yields nothing (dropped without error); and the output
order preserves input order message-by-message and item-by-item
(concatenation homomorphism). -/
theorem c9_translator (ss : List String) (items : List ContentItem)
    (ms₁ ms₂ : List MessageContent) (its₁ its₂ : List ContentItem)
    (s : String) (tag : String) (txt : Option String)
    (htag : tag ≠ "text") :
    convertMessagesToPromptParts (ss.map MessageContent.str)
      = ss.map (fun v => { type := "text", text := some v })
    ∧ convertMessagesToPromptParts [MessageContent.list items] = itemsToParts items
    ∧ itemToParts (ContentItem.str s) = [{ type := "text", text := some s }]
    ∧ itemToParts (ContentItem.tagged "text" txt) = [{ type := "text", text := txt }]
    ∧ itemToParts (ContentItem.tagged tag txt) = []
    ∧ itemsToParts (its₁ ++ its₂) = itemsToParts its₁ ++ itemsToParts its₂
    ∧ convertMessagesToPromptParts (ms₁ ++ ms₂)
      = convertMessagesToPromptParts ms₁ ++ convertMessagesToPromptParts ms₂ := by
  refine ⟨?_, ?_, rfl, rfl, ?_, ?_, ?_⟩
  · induction ss with
    | nil => rfl
    | cons v vs ih =>
      simp only [List.map_cons, convertMessagesToPromptParts, messageToParts, ih]
      rfl
  · simp [convertMessagesToPromptParts, messageToParts]
  · simp [itemToParts, htag]
  · induction its₁ with
    | nil => rfl
    | cons it its ih => simp [itemsToParts, ih]
  · induction ms₁ with
    | nil => rfl
    | cons mm ms ih => simp [convertMessagesToPromptParts, ih]

/-- C9 witness: a concrete string-content message yields exactly its one
text part, and an `image_url`-tagged item is dropped without error. -/
theorem c9_translator_witness :
    convertMessagesToPromptParts [MessageContent.str "a"]
      = [{ type := "text", text := some "a" }]
    ∧ itemToParts (ContentItem.tagged "image_url" (some "d")) = [] := by
  have h := c9_translator ["a"] [] [] [] [] [] "b" "image_url" (some "d") (by decide)
  exact ⟨h.1, h.2.2.2.2.1⟩

/-! ## C10 -/

/-- C10: at the node wrapper, a Maximum Tokens option of `-1` (the
"unlimited" sentinel) constructs the model with `maxTokens` undefined and
the prompt request body then contains no `max_tokens` key; in general the
`max_tokens` and `temperature` keys appear in the synchronous `sendPrompt`
body exactly when the corresponding model field is defined, and the model
fields are the wrapper-mapped options. -/
theorem c10_max_tokens_option (urlValid : String → Bool)
    (credsBaseUrl credsApiKey : Option String)
    (agent providerID modelID : String) (opts : NodeOptions) (m : Model)
    (h : supplyDataModel urlValid credsBaseUrl credsApiKey
          agent providerID modelID opts = Except.ok m) :
    (opts.maxTokens = some (-1) →
      m.maxTokens = none ∧ "max_tokens" ∉ promptBodyKeys m)
    ∧ ("max_tokens" ∈ promptBodyKeys m ↔ m.maxTokens ≠ none)
    ∧ ("temperature" ∈ promptBodyKeys m ↔ m.temperature ≠ none)
    ∧ m.temperature = opts.temperature
    ∧ m.maxTokens = (if opts.maxTokens = some (-1) then none else opts.maxTokens) := by
  obtain ⟨_, _, _, _, _, _, _, _, htemp, hmax⟩ :=
    mkModel_ok_fields urlValid _ m h
  have hmem_max : "max_tokens" ∈ promptBodyKeys m ↔ m.maxTokens ≠ none := by
    rcases hmt : m.maxTokens with _ | v <;>
      simp [promptBodyKeys, hmt]
  have hmem_temp : "temperature" ∈ promptBodyKeys m ↔ m.temperature ≠ none := by
    rcases htt : m.temperature with _ | v <;>
      simp [promptBodyKeys, htt]
  refine ⟨fun hs => ?_, hmem_max, hmem_temp, htemp, by simpa using hmax⟩
  have hnone : m.maxTokens = none := by
    rw [hmax]
    simp [hs]
  exact ⟨hnone, fun hmem => (hmem_max.mp hmem) hnone⟩

/-- C10 witness model: the instance built with Maximum Tokens `-1`. -/
def modelC10W : Model :=
  { baseUrl := "http://localhost:4096", apiKey := none, agent := "build",
    providerID := "anthropic", modelID := "m1", temperature := none,
    maxTokens := none }

/-- C10 witness: the wrapper maps a Maximum Tokens option of `-1` to an
undefined `maxTokens`, and the request body carries no `max_tokens` key. -/
theorem c10_max_tokens_option_witness :
    modelC10W.maxTokens = none ∧ "max_tokens" ∉ promptBodyKeys modelC10W :=
  (c10_max_tokens_option (fun _ => true) none none "build" "anthropic" "m1"
    { maxTokens := some (-1) } modelC10W (by rfl)).1 rfl

end OpenCodeSpec
